import Mathlib

/-!
Verification of the MindFit Study & Wellness Analytics Engine.

Shallow embedding of the analytics code (`utils.py`, and the study-session
write path of `app.py`) into Lean 4:

* timestamps are modelled as minutes since an epoch (`Nat`); the calendar
  date of a timestamp is its day number `t / minutesPerDay`, matching
  SQL `func.date` on UTC datetimes;
* Python floats / SQL decimals are modelled as exact rationals `ℚ`;
* Python `round(x, n)` rounds half to even, modelled by `pyRound`;
* the sentiment classifier is an external capability, modelled by the
  `Classifier` type (absent, returning a label and confidence, or raising);
* database query results (`ORDER BY created_at DESC LIMIT 5` etc.) are
  modelled by list operations on the stored rows; where recency order
  matters the input list is taken to be ordered most-recent-first.

The subject breakdown of `get_study_analytics` is omitted: no claim
concerns it.
-/

namespace Mindfit

/-- Minutes per calendar day; a timestamp is minutes since the epoch. -/
def minutesPerDay : Nat := 1440

/-- Calendar date (day number) of a timestamp, as SQL `func.date`. -/
def dateOf (t : Nat) : Nat := t / minutesPerDay

/-- A stored `study_sessions` row (`models.StudySession`): the fields the
analytics engine reads. `duration` is in minutes. -/
structure StudySession where
  user_id : Nat
  subject : String
  duration : Int
  created_at : Nat
  deriving DecidableEq

/-- A stored `wellness_entries` row (`models.WellnessEntry`): the fields the
analytics engine reads. `stress_level` and `energy_level` are on a 1-10
integer scale. -/
structure WellnessEntry where
  user_id : Nat
  stress_level : Int
  energy_level : Int
  created_at : Nat
  deriving DecidableEq

/-- Round half to even on rationals (the rounding of Python `round`). -/
def roundHalfEven (q : ℚ) : ℤ :=
  let f : ℤ := ⌊q⌋
  let r : ℚ := q - f
  if r < 1 / 2 then f
  else if 1 / 2 < r then f + 1
  else if f % 2 = 0 then f else f + 1

/-- Python `round(q, n)` on exact rationals. -/
def pyRound (q : ℚ) (n : Nat) : ℚ := (roundHalfEven (q * 10 ^ n) : ℚ) / 10 ^ n

/-! ## Sentiment adaptation (`utils.analyze_sentiment`, `app.new_study_session`) -/

/-- One interaction with the external sentiment classifier: the module-level
`sentiment_analyzer` may be `None` (import failed), may return a
`(label, confidence)` result, or may raise. -/
inductive Classifier where
  | absent
  | ok (label : String) (confidence : ℚ)
  | raises
  deriving DecidableEq

/-- `utils.analyze_sentiment`: empty text or absent classifier yield
`("NEUTRAL", 0.5)`; an exception is caught and also yields
`("NEUTRAL", 0.5)`; otherwise the confidence is kept for a POSITIVE label
and folded to `1 - confidence` for any other label. -/
def analyze_sentiment (text : String) (c : Classifier) : String × ℚ :=
  if text = "" then ("NEUTRAL", 1 / 2)
  else
    match c with
    | Classifier.absent => ("NEUTRAL", 1 / 2)
    | Classifier.raises => ("NEUTRAL", 1 / 2)
    | Classifier.ok l s => (l, if l = "POSITIVE" then s else 1 - s)

/-- The sentiment value computed in `app.new_study_session` (lines 216-218):
the default `{"label": "NEUTRAL", "score": 0.5}` is used for empty notes,
otherwise `analyze_sentiment` is invoked. -/
def session_sentiment (notes : String) (c : Classifier) : String × ℚ :=
  if notes = "" then ("NEUTRAL", 1 / 2) else analyze_sentiment notes c

/-- The `sentiment_score` stored with a study session (`app.py` line 228):
the score is kept for a POSITIVE label and negated otherwise. -/
def stored_sentiment_score (notes : String) (c : Classifier) : ℚ :=
  if (session_sentiment notes c).1 = "POSITIVE" then (session_sentiment notes c).2
  else -(session_sentiment notes c).2

/-! ## Recommendation engine (`utils.generate_study_recommendations`) -/

/-- A recommendation dict as built by `generate_study_recommendations`. -/
structure Recommendation where
  type : String
  title : String
  message : String
  priority : String
  deriving DecidableEq

/-- The long-session recommendation (`utils.py` lines 84-89). -/
def breakRec : Recommendation :=
  { type := "break"
    title := "Take Regular Breaks"
    message := "Your study sessions are quite long. Consider taking a 5-10 minute break every 50 minutes to maintain focus."
    priority := "high" }

/-- The high-stress recommendation (`utils.py` lines 96-101). -/
def stressRec : Recommendation :=
  { type := "wellness"
    title := "High Stress Detected"
    message := "Your stress levels have been high. Try some relaxation techniques or take a short break."
    priority := "high" }

/-- First generic fallback tip (`utils.py` lines 106-111). -/
def activeRecallTip : Recommendation :=
  { type := "study"
    title := "Use Active Recall"
    message := "Try testing yourself on the material instead of just re-reading it. This improves retention."
    priority := "medium" }

/-- Second generic fallback tip (`utils.py` lines 112-117). -/
def spacingTip : Recommendation :=
  { type := "study"
    title := "Space Out Your Study Sessions"
    message := "Studying a little bit each day is more effective than cramming. Try the spacing effect!"
    priority := "medium" }

/-- The `ORDER BY created_at DESC LIMIT 5` query over the user's study
sessions; the stored list is taken ordered most-recent-first. -/
def recent_study_sessions (sessions : List StudySession) (uid : Nat) : List StudySession :=
  (sessions.filter (fun s => decide (s.user_id = uid))).take 5

/-- The `ORDER BY created_at DESC LIMIT 5` query over the user's wellness
entries; the stored list is taken ordered most-recent-first. -/
def recent_wellness_entries (entries : List WellnessEntry) (uid : Nat) : List WellnessEntry :=
  (entries.filter (fun w => decide (w.user_id = uid))).take 5

/-- `sum(s.duration for s in recent_sessions) / len(recent_sessions)`. -/
def avg_duration (l : List StudySession) : ℚ :=
  (l.map (fun s => (s.duration : ℚ))).sum / l.length

/-- `sum(w.stress_level for w in recent_wellness) / len(recent_wellness)`. -/
def avg_stress_of (l : List WellnessEntry) : ℚ :=
  (l.map (fun w => (w.stress_level : ℚ))).sum / l.length

/-- The guard `if recent_sessions:` followed by `if avg_duration > 60:`. -/
def break_rule_fires (sessions : List StudySession) (uid : Nat) : Bool :=
  !(recent_study_sessions sessions uid).isEmpty &&
    decide (60 < avg_duration (recent_study_sessions sessions uid))

/-- The guard `if recent_wellness:` followed by `if avg_stress > 7:`. -/
def stress_rule_fires (entries : List WellnessEntry) (uid : Nat) : Bool :=
  !(recent_wellness_entries entries uid).isEmpty &&
    decide (7 < avg_stress_of (recent_wellness_entries entries uid))

/-- `utils.generate_study_recommendations`: the break rule appends first,
then the stress rule; the two generic tips are appended exactly when the
list is still empty. -/
def generate_study_recommendations (sessions : List StudySession)
    (entries : List WellnessEntry) (uid : Nat) : List Recommendation :=
  let recs :=
    (if break_rule_fires sessions uid then [breakRec] else []) ++
      (if stress_rule_fires entries uid then [stressRec] else [])
  if recs.isEmpty then [activeRecallTip, spacingTip] else recs

/-- Five wellness entries with stress levels 8, 9, 8, 9, 8 (mean 8.4),
listed most-recent-first. -/
def highStressEntries : List WellnessEntry :=
  [⟨1, 8, 5, 100⟩, ⟨1, 9, 5, 90⟩, ⟨1, 8, 5, 80⟩, ⟨1, 9, 5, 70⟩, ⟨1, 8, 5, 60⟩]

/-- Two study sessions of 90 minutes each (mean duration 90 > 60),
listed most-recent-first. -/
def longSessions : List StudySession :=
  [⟨1, "math", 90, 200⟩, ⟨1, "math", 90, 150⟩]

/-! ## Productivity scorer (`utils.calculate_productivity_score`) -/

/-- `week_ago = datetime.utcnow() - timedelta(days=7)`. -/
def week_ago (now : Nat) : Nat := now - 7 * minutesPerDay

/-- The study-session rows read by the scorer: the user's sessions with
`created_at >= week_ago` (the scorer filters with no upper bound). -/
def week_sessions (now : Nat) (sessions : List StudySession) (uid : Nat) : List StudySession :=
  sessions.filter (fun s => decide (s.user_id = uid ∧ week_ago now ≤ s.created_at))

/-- The wellness rows read by the scorer: the user's entries with
`created_at >= week_ago`. -/
def week_wellness (now : Nat) (entries : List WellnessEntry) (uid : Nat) : List WellnessEntry :=
  entries.filter (fun w => decide (w.user_id = uid ∧ week_ago now ≤ w.created_at))

/-- `func.sum(StudySession.duration)` over the lookback window; the SQL
`NULL`-on-empty followed by `or 0` coincides with the empty sum. -/
def study_time (now : Nat) (sessions : List StudySession) (uid : Nat) : ℚ :=
  ((week_sessions now sessions uid).map (fun s => (s.duration : ℚ))).sum

/-- `study_score = min(study_time / 60, 20) / 20 * 50`. -/
def study_score (now : Nat) (sessions : List StudySession) (uid : Nat) : ℚ :=
  min (study_time now sessions uid / 60) 20 / 20 * 50

/-- `func.count(func.distinct(func.date(StudySession.created_at)))` over the
lookback window. -/
def study_days (now : Nat) (sessions : List StudySession) (uid : Nat) : Nat :=
  (((week_sessions now sessions uid).map (fun s => dateOf s.created_at)).dedup).length

/-- `consistency_score = (study_days / 7) * 30`. -/
def consistency_score (now : Nat) (sessions : List StudySession) (uid : Nat) : ℚ :=
  (study_days now sessions uid : ℚ) / 7 * 30

/-- `func.avg(WellnessEntry.stress_level)` over the lookback window followed
by `or 5`: `None` (no rows) becomes 5, and - faithfully to Python
truthiness - so would an average equal to 0. -/
def avg_mood (now : Nat) (entries : List WellnessEntry) (uid : Nat) : ℚ :=
  let l := week_wellness now entries uid
  if l.isEmpty then 5
  else if (l.map (fun w => (w.stress_level : ℚ))).sum / l.length = 0 then 5
  else (l.map (fun w => (w.stress_level : ℚ))).sum / l.length

/-- `mood_score = (1 - (avg_mood - 1) / 9) * 20`. -/
def mood_score (now : Nat) (entries : List WellnessEntry) (uid : Nat) : ℚ :=
  (1 - (avg_mood now entries uid - 1) / 9) * 20

/-- `utils.calculate_productivity_score`: the three sub-scores are summed,
the total rounded to 2 decimals and clamped to `[0, 100]`. -/
def calculate_productivity_score (now : Nat) (sessions : List StudySession)
    (entries : List WellnessEntry) (uid : Nat) : ℚ :=
  min 100 (max 0 (pyRound (study_score now sessions uid +
    consistency_score now sessions uid + mood_score now entries uid) 2))

/-- Eight 30-minute sessions at local noon on eight consecutive calendar
days; with `now` at noon of the eighth day all of them lie in the 7-day
lookback window. -/
def eightDaySessions : List StudySession :=
  (List.range 8).map (fun i => ⟨1, "math", 30, 720 + i * minutesPerDay⟩)

/-! ## Daily aggregator (`utils.get_study_analytics`) -/

/-- `start_date = end_date - timedelta(days=days-1)`. -/
def window_start (now : Nat) (days : Nat) : Nat := now - (days - 1) * minutesPerDay

/-- The study-session rows of the aggregator's window:
`start_date <= created_at <= end_date` for the user. -/
def window_sessions (now days : Nat) (sessions : List StudySession) (uid : Nat) :
    List StudySession :=
  sessions.filter (fun s =>
    decide (s.user_id = uid ∧ window_start now days ≤ s.created_at ∧ s.created_at ≤ now))

/-- The wellness rows of the aggregator's window. -/
def window_wellness (now days : Nat) (entries : List WellnessEntry) (uid : Nat) :
    List WellnessEntry :=
  entries.filter (fun w =>
    decide (w.user_id = uid ∧ window_start now days ≤ w.created_at ∧ w.created_at ≤ now))

/-- `dates = [(start_date + timedelta(days=i)) for i in range(days)]`,
each formatted as its calendar date (modelled as the day number). -/
def analytics_dates (now days : Nat) : List Nat :=
  (List.range days).map (fun i => dateOf (window_start now days + i * minutesPerDay))

/-- The gap-filled study hours of one date: the dictionary built from the
group-by-date sums maps a date with rows to `total_duration / 60`, and
`study_data.get(date, 0)` fills dates without rows with 0, which is also
the empty sum divided by 60. -/
def day_study_hours (fs : List StudySession) (d : Nat) : ℚ :=
  ((fs.filter (fun s => decide (dateOf s.created_at = d))).map
    (fun s => (s.duration : ℚ))).sum / 60

/-- The gap-filled per-day average of a wellness column: the group-by-date
dictionary holds the in-day mean, and `.get(date, None)` fills dates
without rows with `None`. -/
def day_avg (f : WellnessEntry → Int) (fw : List WellnessEntry) (d : Nat) : Option ℚ :=
  let l := fw.filter (fun w => decide (dateOf w.created_at = d))
  if l.isEmpty then none
  else some ((l.map (fun w => ((f w : Int) : ℚ))).sum / l.length)

/-- Python truthiness of an entry of the gap-filled series: `None` and a
zero value are falsy. -/
def pyTruthy : Option ℚ → Bool
  | none => false
  | some q => decide (q ≠ 0)

/-- Line 233/234 of `utils.py`:
`round(sum(filter(None, levels)) / len([s for s in levels if s is not None]), 1) if any(levels) else None`.
`filter(None, ...)` keeps the truthy entries; the denominator counts the
non-`None` entries. -/
def series_avg (levels : List (Option ℚ)) : Option ℚ :=
  if levels.any pyTruthy then
    some (pyRound (((levels.filterMap id).filter (fun q => decide (q ≠ 0))).sum /
      (levels.filterMap id).length) 1)
  else none

/-- The mean of the non-null entries of a gap-filled series (the quantity
named by the specification). -/
def nonNullMean (levels : List (Option ℚ)) : ℚ :=
  (levels.filterMap id).sum / (levels.filterMap id).length

/-- The analytics payload of `utils.get_study_analytics`; the subject
breakdown is omitted (no claim concerns it). -/
structure AnalyticsResult where
  dates : List Nat
  study_hours : List ℚ
  stress_levels : List (Option ℚ)
  energy_levels : List (Option ℚ)
  total_study_hours : ℚ
  avg_stress : Option ℚ
  avg_energy : Option ℚ

/-- `utils.get_study_analytics` for a user over the window of `days`
calendar days ending at `now`. -/
def get_study_analytics (now : Nat) (sessions : List StudySession)
    (entries : List WellnessEntry) (uid : Nat) (days : Nat) : AnalyticsResult :=
  let fs := window_sessions now days sessions uid
  let fw := window_wellness now days entries uid
  let dates := analytics_dates now days
  let study_hours := dates.map (day_study_hours fs)
  let stress_levels := dates.map (day_avg (fun w => w.stress_level) fw)
  let energy_levels := dates.map (day_avg (fun w => w.energy_level) fw)
  { dates := dates
    study_hours := study_hours
    stress_levels := stress_levels
    energy_levels := energy_levels
    total_study_hours := pyRound study_hours.sum 1
    avg_stress := series_avg stress_levels
    avg_energy := series_avg energy_levels }

/-- Three wellness entries of one user on a single day with stress levels
1, 1, 2: the in-day mean is 4/3, which is not representable to one decimal
place. -/
def oneDayEntries : List WellnessEntry :=
  [⟨1, 1, 5, 720⟩, ⟨1, 1, 5, 710⟩, ⟨1, 2, 5, 700⟩]

end Mindfit

namespace Mindfit

/-- C4 (code evaluated at the failing inputs): for empty notes, and for
non-empty notes with the classifier unavailable or raising, the stored
`sentiment_score` is `-0.5`, not the `0.0` the specification requires. -/
theorem neutral_path_stores_minus_half :
    stored_sentiment_score "" Classifier.absent = -(1 / 2) ∧
    stored_sentiment_score "" (Classifier.ok "POSITIVE" (9 / 10)) = -(1 / 2) ∧
    stored_sentiment_score "hello" Classifier.absent = -(1 / 2) ∧
    stored_sentiment_score "hello" Classifier.raises = -(1 / 2) := by
  have h1 : ("NEUTRAL" : String) ≠ "POSITIVE" := by decide
  have h2 : ("hello" : String) ≠ "" := by decide
  refine ⟨?_, ?_, ?_, ?_⟩ <;>
    norm_num [stored_sentiment_score, session_sentiment, analyze_sentiment, h1, h2]

/-- C5 (code evaluated at the failing input): for a NEGATIVE classification
with confidence 0.9, `analyze_sentiment` returns folded score `0.1`
(contradicting its own docstring, which says the score is the confidence),
and the stored signed score is `-0.1`, not the `-0.9` the specification
requires. -/
theorem negative_label_stores_folded_score :
    analyze_sentiment "bad" (Classifier.ok "NEGATIVE" (9 / 10)) = ("NEGATIVE", 1 / 10) ∧
    stored_sentiment_score "bad" (Classifier.ok "NEGATIVE" (9 / 10)) = -(1 / 10) := by
  have h1 : ("bad" : String) ≠ "" := by decide
  have h2 : ("NEGATIVE" : String) ≠ "POSITIVE" := by decide
  refine ⟨?_, ?_⟩ <;>
    norm_num [stored_sentiment_score, session_sentiment, analyze_sentiment, h1, h2]

/-- C9: for every text and classifier behavior with confidence in `[0, 1]`,
`analyze_sentiment` returns a score in `[0, 1]` (and, being a total
function, never raises), and the `sentiment_score` stored at the
study-session write path lies in `[-1, 1]`. -/
theorem sentiment_score_range (notes : String) (c : Classifier)
    (hc : ∀ l s, c = Classifier.ok l s → 0 ≤ s ∧ s ≤ 1) :
    (0 ≤ (analyze_sentiment notes c).2 ∧ (analyze_sentiment notes c).2 ≤ 1) ∧
    (-1 ≤ stored_sentiment_score notes c ∧ stored_sentiment_score notes c ≤ 1) := by
  have key : 0 ≤ (analyze_sentiment notes c).2 ∧ (analyze_sentiment notes c).2 ≤ 1 := by
    unfold analyze_sentiment
    by_cases ht : notes = "" <;> simp [ht]
    · norm_num
    · cases c with
      | absent => norm_num
      | raises => norm_num
      | ok l s =>
        have hs := hc l s rfl
        by_cases hl : l = "POSITIVE" <;> simp [hl]
        · exact hs
        · constructor <;> linarith [hs.1, hs.2]
  refine ⟨key, ?_⟩
  unfold stored_sentiment_score session_sentiment
  by_cases ht : notes = "" <;> simp [ht]
  · norm_num
  · by_cases hl : (analyze_sentiment notes c).1 = "POSITIVE" <;> simp [hl]
    · constructor <;> linarith [key.1, key.2]
    · constructor <;> linarith [key.1, key.2]

/-- C9 witness: the range theorem instantiated at a concrete text and a
concrete classifier result with confidence 0.7. -/
theorem sentiment_score_range_witness :
    (∀ l s, Classifier.ok "NEGATIVE" (7 / 10) = Classifier.ok l s → 0 ≤ s ∧ s ≤ 1) ∧
    (-1 ≤ stored_sentiment_score "tough" (Classifier.ok "NEGATIVE" (7 / 10)) ∧
      stored_sentiment_score "tough" (Classifier.ok "NEGATIVE" (7 / 10)) ≤ 1) :=
  ⟨by intro l s h; cases h; norm_num,
    (sentiment_score_range "tough" (Classifier.ok "NEGATIVE" (7 / 10))
      (by intro l s h; cases h; norm_num)).2⟩

/-- Unfolding of the high-stress guard: the rule fires exactly when the
recent-wellness query is non-empty and its mean stress level is
strictly above 7. -/
theorem stress_rule_fires_iff (entries : List WellnessEntry) (uid : Nat) :
    stress_rule_fires entries uid = true ↔
      recent_wellness_entries entries uid ≠ [] ∧
        7 < avg_stress_of (recent_wellness_entries entries uid) := by
  simp [stress_rule_fires, List.isEmpty_iff]

/-- Unfolding of the long-session guard: the rule fires exactly when the
recent-sessions query is non-empty and its mean duration is strictly
above 60 minutes. -/
theorem break_rule_fires_iff (sessions : List StudySession) (uid : Nat) :
    break_rule_fires sessions uid = true ↔
      recent_study_sessions sessions uid ≠ [] ∧
        60 < avg_duration (recent_study_sessions sessions uid) := by
  simp [break_rule_fires, List.isEmpty_iff]

/-- C7: the recommendation engine (a total function, so it never errors)
returns exactly the two generic tips, in their fixed order, precisely when
neither rule fires; in particular it does so on empty history, and both
tips carry priority medium. -/
theorem fallback_tips_iff (sessions : List StudySession)
    (entries : List WellnessEntry) (uid : Nat) :
    (generate_study_recommendations sessions entries uid = [activeRecallTip, spacingTip] ↔
      break_rule_fires sessions uid = false ∧ stress_rule_fires entries uid = false) ∧
    generate_study_recommendations [] [] uid = [activeRecallTip, spacingTip] ∧
    activeRecallTip.priority = "medium" ∧ spacingTip.priority = "medium" := by
  have h1 : breakRec ≠ activeRecallTip := by decide
  have h2 : stressRec ≠ activeRecallTip := by decide
  refine ⟨?_, rfl, rfl, rfl⟩
  cases hb : break_rule_fires sessions uid <;>
    cases hs : stress_rule_fires entries uid <;>
      simp [generate_study_recommendations, hb, hs, h1, h2]

/-- C7 witness: on a user with zero study events and zero wellness entries
the engine returns the two generic tips. -/
theorem fallback_tips_iff_witness :
    generate_study_recommendations [] [] 0 = [activeRecallTip, spacingTip] :=
  (fallback_tips_iff [] [] 0).2.1

/-- C8: the high-stress recommendation is emitted iff at least one wellness
entry exists for the user and the mean stress level of the up-to-5 most
recent wellness entries is strictly greater than 7. -/
theorem high_stress_rule_iff (sessions : List StudySession)
    (entries : List WellnessEntry) (uid : Nat) :
    stressRec ∈ generate_study_recommendations sessions entries uid ↔
      recent_wellness_entries entries uid ≠ [] ∧
        7 < avg_stress_of (recent_wellness_entries entries uid) := by
  rw [← stress_rule_fires_iff]
  have h1 : stressRec ≠ activeRecallTip := by decide
  have h2 : stressRec ≠ spacingTip := by decide
  have h3 : stressRec ≠ breakRec := by decide
  cases hb : break_rule_fires sessions uid <;>
    cases hs : stress_rule_fires entries uid <;>
      simp [generate_study_recommendations, hb, hs, h1, h2, h3]

/-- C8 witness: five entries with stress levels 8, 9, 8, 9, 8 (mean 8.4 > 7)
trigger the high-stress recommendation. -/
theorem high_stress_rule_iff_witness :
    stressRec ∈ generate_study_recommendations [] highStressEntries 1 :=
  (high_stress_rule_iff [] highStressEntries 1).mpr
    ⟨by decide,
      by norm_num [avg_stress_of, recent_wellness_entries, highStressEntries]⟩

/-- C10: the engine always returns a list of length 1 or 2: both rule
recommendations (break before stress) when both rules fire, the single
firing rule recommendation otherwise, and exactly the two fallback tips
when no rule fires, so rule output and fallback tips never mix. -/
theorem recommendation_list_shape (sessions : List StudySession)
    (entries : List WellnessEntry) (uid : Nat) :
    ((generate_study_recommendations sessions entries uid).length = 1 ∨
      (generate_study_recommendations sessions entries uid).length = 2) ∧
    (break_rule_fires sessions uid = true → stress_rule_fires entries uid = true →
      generate_study_recommendations sessions entries uid = [breakRec, stressRec]) ∧
    (break_rule_fires sessions uid = true → stress_rule_fires entries uid = false →
      generate_study_recommendations sessions entries uid = [breakRec]) ∧
    (break_rule_fires sessions uid = false → stress_rule_fires entries uid = true →
      generate_study_recommendations sessions entries uid = [stressRec]) ∧
    (break_rule_fires sessions uid = false → stress_rule_fires entries uid = false →
      generate_study_recommendations sessions entries uid = [activeRecallTip, spacingTip]) := by
  cases hb : break_rule_fires sessions uid <;>
    cases hs : stress_rule_fires entries uid <;>
      simp [generate_study_recommendations, hb, hs]

/-- C10 witness: with both rules firing the engine returns the break
recommendation followed by the stress recommendation. -/
theorem recommendation_list_shape_witness :
    generate_study_recommendations longSessions highStressEntries 1 = [breakRec, stressRec] :=
  (recommendation_list_shape longSessions highStressEntries 1).2.1
    (by norm_num [break_rule_fires, recent_study_sessions, avg_duration, longSessions])
    (by norm_num [stress_rule_fires, recent_wellness_entries, avg_stress_of, highStressEntries])

/-- C3 counterexample: with `now` at noon, the lookback window
`created_at >= now - 7 days` spans parts of eight calendar days, so eight
noon sessions on consecutive days give a distinct-day count of 8 and a
consistency sub-score of 240/7 > 30: the count is not bounded by 7 and the
sub-score is not clamped to 30. -/
theorem consistency_exceeds_cap :
    study_days 10800 eightDaySessions 1 = 8 ∧
    consistency_score 10800 eightDaySessions 1 = 240 / 7 ∧
    (30 : ℚ) < consistency_score 10800 eightDaySessions 1 ∧
    (∀ s ∈ eightDaySessions, s.created_at ≤ 10800) := by
  have hd : study_days 10800 eightDaySessions 1 = 8 := by decide
  refine ⟨hd, ?_, ?_, by decide⟩ <;> rw [consistency_score, hd] <;> norm_num

/-- C3 amended: the consistency sub-score equals `d / 7 * 30`, where `d`
is the number of distinct calendar days with at least one study event with
timestamp at or after `now - 7 days`; when no event is timestamped in the
future, `d` satisfies `0 ≤ d ≤ 8` (the lookback spans parts of eight
calendar days), so the sub-score can reach 240/7 ≈ 34.29 and is not
clamped to 30 before summation; only the total is clamped to [0, 100]. -/
theorem consistency_formula_bound (now : Nat) (sessions : List StudySession) (uid : Nat)
    (hnow : 7 * minutesPerDay ≤ now)
    (hpast : ∀ s ∈ sessions, s.created_at ≤ now) :
    consistency_score now sessions uid = (study_days now sessions uid : ℚ) / 7 * 30 ∧
    study_days now sessions uid ≤ 8 := by
  refine ⟨rfl, ?_⟩
  have hnodup : ((week_sessions now sessions uid).map
      (fun s => dateOf s.created_at)).dedup.Nodup := List.nodup_dedup _
  have hsub : ((week_sessions now sessions uid).map
      (fun s => dateOf s.created_at)).dedup.toFinset ⊆
      Finset.Icc (dateOf (week_ago now)) (dateOf now) := by
    intro d hd
    rw [List.mem_toFinset, List.mem_dedup, List.mem_map] at hd
    obtain ⟨s, hs, rfl⟩ := hd
    rw [week_sessions, List.mem_filter] at hs
    have hcond := of_decide_eq_true hs.2
    exact Finset.mem_Icc.mpr
      ⟨Nat.div_le_div_right hcond.2, Nat.div_le_div_right (hpast s hs.1)⟩
  have hcard : study_days now sessions uid ≤
      (Finset.Icc (dateOf (week_ago now)) (dateOf now)).card := by
    rw [study_days, ← List.toFinset_card_of_nodup hnodup]
    exact Finset.card_le_card hsub
  have hlo : dateOf (week_ago now) = now / minutesPerDay - 7 := by
    rw [dateOf, week_ago, Nat.mul_comm 7 minutesPerDay]
    exact Nat.sub_mul_div now minutesPerDay 7 (by rw [Nat.mul_comm]; exact hnow)
  have h7 : 7 ≤ now / minutesPerDay := by
    rw [Nat.le_div_iff_mul_le (by norm_num [minutesPerDay])]
    rw [Nat.mul_comm] at hnow
    exact hnow
  rw [Nat.card_Icc, hlo, dateOf] at hcard
  omega

/-- C3 witness: the amended bound applied to the eight noon sessions of the
counterexample, whose timestamps all lie at or before `now`. -/
theorem consistency_formula_bound_witness :
    (7 * minutesPerDay ≤ 10800 ∧ ∀ s ∈ eightDaySessions, s.created_at ≤ 10800) ∧
    study_days 10800 eightDaySessions 1 ≤ 8 :=
  ⟨⟨by decide, by decide⟩,
    (consistency_formula_bound 10800 eightDaySessions 1 (by decide) (by decide)).2⟩

/-- C6: with no study sessions and no wellness entries in the scorer's
7-day window, the volume and consistency sub-scores are 0, the wellbeing
sub-score is computed from the default average stress of 5, and the total
is `round((1 - (5 - 1) / 9) * 20, 2) = 11.11`. -/
theorem empty_week_score (now : Nat) (sessions : List StudySession)
    (entries : List WellnessEntry) (uid : Nat)
    (hs : week_sessions now sessions uid = [])
    (hw : week_wellness now entries uid = []) :
    study_score now sessions uid = 0 ∧
    consistency_score now sessions uid = 0 ∧
    calculate_productivity_score now sessions entries uid = 1111 / 100 ∧
    (1111 / 100 : ℚ) = pyRound ((1 - (5 - 1) / 9) * 20) 2 := by
  have hfloor : ⌊(10000 : ℚ) / 9⌋ = 1111 := by
    rw [Int.floor_eq_iff]
    norm_num
  have hround0 : pyRound ((100 : ℚ) / 9) 2 = 1111 / 100 := by
    have harg : (100 : ℚ) / 9 * 10 ^ 2 = 10000 / 9 := by norm_num
    rw [pyRound, harg, roundHalfEven]
    norm_num [hfloor]
  have hround : pyRound ((1 - ((5 : ℚ) - 1) / 9) * 20) 2 = 1111 / 100 := by
    have : (1 - ((5 : ℚ) - 1) / 9) * 20 = 100 / 9 := by norm_num
    rw [this, hround0]
  have h1 : study_score now sessions uid = 0 := by
    rw [study_score, study_time, hs]; norm_num
  have h2 : consistency_score now sessions uid = 0 := by
    rw [consistency_score, study_days, hs]; norm_num
  have h3 : mood_score now entries uid = (1 - ((5 : ℚ) - 1) / 9) * 20 := by
    rw [mood_score, avg_mood, hw]; norm_num
  refine ⟨h1, h2, ?_, hround.symm⟩
  rw [calculate_productivity_score, h1, h2, h3]
  norm_num [hround0]

/-- C6 witness: the score of a user with no stored data at all. -/
theorem empty_week_score_witness :
    (week_sessions 10080 [] 1 = [] ∧ week_wellness 10080 [] 1 = []) ∧
    calculate_productivity_score 10080 [] [] 1 = 1111 / 100 :=
  ⟨⟨rfl, rfl⟩, (empty_week_score 10080 [] [] 1 rfl rfl).2.2.1⟩

/-- `getD` of a map over `List.range` evaluates the mapped function. -/
theorem getD_range_map {α : Type} (f : Nat → α) (d : α) {n i : Nat} (h : i < n) :
    ((List.range n).map f).getD i d = f i := by
  rw [List.getD_eq_getElem?_getD, List.getElem?_map, List.getElem?_range h]
  rfl

/-- The date sequence of the aggregator is the canonical contiguous
ascending day range ending at the current day. -/
theorem analytics_dates_eq (now days : Nat)
    (hnow : (days - 1) * minutesPerDay ≤ now) :
    analytics_dates now days =
      (List.range days).map (fun i => now / minutesPerDay - (days - 1) + i) := by
  rw [analytics_dates]
  have hfun : (fun i => dateOf (window_start now days + i * minutesPerDay)) =
      fun i => now / minutesPerDay - (days - 1) + i := by
    funext i
    rw [dateOf, window_start,
      Nat.add_mul_div_right _ _ (show 0 < minutesPerDay by norm_num [minutesPerDay])]
    congr 1
    rw [Nat.mul_comm (days - 1) minutesPerDay]
    exact Nat.sub_mul_div now minutesPerDay (days - 1) (by rw [Nat.mul_comm]; exact hnow)
  rw [hfun]

/-- C1: for `days ≥ 1` the aggregator returns `dates`, `study_hours`,
`stress_levels` and `energy_levels` of length exactly `days`; the dates
are the ascending contiguous day range ending at the current day; a day
on which the user has no study event in the window has `study_hours` 0,
and a day with no wellness entry has null stress and energy. -/
theorem aggregate_window_shape (now : Nat) (sessions : List StudySession)
    (entries : List WellnessEntry) (uid days : Nat)
    (hd : 1 ≤ days) (hnow : (days - 1) * minutesPerDay ≤ now) :
    ((get_study_analytics now sessions entries uid days).dates.length = days ∧
      (get_study_analytics now sessions entries uid days).study_hours.length = days ∧
      (get_study_analytics now sessions entries uid days).stress_levels.length = days ∧
      (get_study_analytics now sessions entries uid days).energy_levels.length = days) ∧
    ((get_study_analytics now sessions entries uid days).dates =
      (List.range days).map (fun i => now / minutesPerDay - (days - 1) + i) ∧
      (get_study_analytics now sessions entries uid days).dates.getD (days - 1) 0 =
        now / minutesPerDay) ∧
    (∀ i, i < days →
      (∀ s ∈ window_sessions now days sessions uid,
        dateOf s.created_at ≠
          (get_study_analytics now sessions entries uid days).dates.getD i 0) →
      (get_study_analytics now sessions entries uid days).study_hours.getD i 0 = 0) ∧
    (∀ i, i < days →
      (∀ w ∈ window_wellness now days entries uid,
        dateOf w.created_at ≠
          (get_study_analytics now sessions entries uid days).dates.getD i 0) →
      (get_study_analytics now sessions entries uid days).stress_levels.getD i none = none ∧
        (get_study_analytics now sessions entries uid days).energy_levels.getD i none = none) := by
  have hmap := analytics_dates_eq now days hnow
  have hdates : (get_study_analytics now sessions entries uid days).dates =
      analytics_dates now days := rfl
  have hgetD : ∀ i, i < days →
      (get_study_analytics now sessions entries uid days).dates.getD i 0 =
        dateOf (window_start now days + i * minutesPerDay) := by
    intro i hi
    rw [hdates, analytics_dates, getD_range_map _ _ hi]
  refine ⟨⟨?_, ?_, ?_, ?_⟩, ⟨hmap, ?_⟩, ?_, ?_⟩
  · rw [hdates, analytics_dates]; simp
  · show ((analytics_dates now days).map _).length = days
    rw [analytics_dates]; simp
  · show ((analytics_dates now days).map _).length = days
    rw [analytics_dates]; simp
  · show ((analytics_dates now days).map _).length = days
    rw [analytics_dates]; simp
  · rw [hdates, hmap, getD_range_map _ _ (by omega : days - 1 < days)]
    have h7 : days - 1 ≤ now / minutesPerDay := by
      rw [Nat.le_div_iff_mul_le (show 0 < minutesPerDay by norm_num [minutesPerDay])]
      rw [Nat.mul_comm] at hnow
      rw [Nat.mul_comm]
      exact hnow
    omega
  · intro i hi hnone
    have hsh : (get_study_analytics now sessions entries uid days).study_hours.getD i 0 =
        day_study_hours (window_sessions now days sessions uid)
          (dateOf (window_start now days + i * minutesPerDay)) := by
      show ((analytics_dates now days).map _).getD i 0 = _
      rw [analytics_dates, List.map_map, getD_range_map _ _ hi]
      rfl
    rw [hsh, day_study_hours]
    have hnil : (window_sessions now days sessions uid).filter
        (fun s => decide (dateOf s.created_at =
          dateOf (window_start now days + i * minutesPerDay))) = [] := by
      rw [List.filter_eq_nil_iff]
      intro s hsmem
      simp only [decide_eq_true_eq]
      intro hEq
      exact hnone s hsmem (by rw [hgetD i hi]; exact hEq)
    rw [hnil]
    simp
  · intro i hi hnone
    have hnil : (window_wellness now days entries uid).filter
        (fun w => decide (dateOf w.created_at =
          dateOf (window_start now days + i * minutesPerDay))) = [] := by
      rw [List.filter_eq_nil_iff]
      intro w hwmem
      simp only [decide_eq_true_eq]
      intro hEq
      exact hnone w hwmem (by rw [hgetD i hi]; exact hEq)
    constructor
    · have hsl : (get_study_analytics now sessions entries uid days).stress_levels.getD i none =
          day_avg (fun w => w.stress_level) (window_wellness now days entries uid)
            (dateOf (window_start now days + i * minutesPerDay)) := by
        show ((analytics_dates now days).map _).getD i none = _
        rw [analytics_dates, List.map_map, getD_range_map _ _ hi]
        rfl
      rw [hsl, day_avg]
      simp [hnil]
    · have hel : (get_study_analytics now sessions entries uid days).energy_levels.getD i none =
          day_avg (fun w => w.energy_level) (window_wellness now days entries uid)
            (dateOf (window_start now days + i * minutesPerDay)) := by
        show ((analytics_dates now days).map _).getD i none = _
        rw [analytics_dates, List.map_map, getD_range_map _ _ hi]
        rfl
      rw [hel, day_avg]
      simp [hnil]

/-- C1 witness: the shape facts at a concrete two-day window with no
stored events. -/
theorem aggregate_window_shape_witness :
    (1 ≤ 2 ∧ (2 - 1) * minutesPerDay ≤ 15000) ∧
    ((get_study_analytics 15000 [] [] 1 2).dates.length = 2 ∧
      (get_study_analytics 15000 [] [] 1 2).study_hours.length = 2 ∧
      (get_study_analytics 15000 [] [] 1 2).stress_levels.length = 2 ∧
      (get_study_analytics 15000 [] [] 1 2).energy_levels.length = 2) :=
  ⟨⟨by decide, by decide⟩,
    (aggregate_window_shape 15000 [] [] 1 2 (by decide) (by decide)).1⟩

/-- A list of rationals that are all at least 1 sums to at least its
length. -/
theorem length_le_sum_of_one_le (l : List ℚ) (h : ∀ x ∈ l, 1 ≤ x) :
    (l.length : ℚ) ≤ l.sum := by
  induction l with
  | nil => simp
  | cons a t ih =>
    simp only [List.length_cons, List.sum_cons]
    push_cast
    have ha := h a (List.mem_cons_self a t)
    have ht := ih fun x hx => h x (List.mem_cons_of_mem a hx)
    linarith

/-- The mean of a non-empty list of rationals that are all at least 1 is
at least 1. -/
theorem one_le_mean (l : List ℚ) (hne : l ≠ []) (h : ∀ x ∈ l, 1 ≤ x) :
    1 ≤ l.sum / l.length := by
  have hlen : (0 : ℚ) < l.length := by exact_mod_cast List.length_pos.mpr hne
  rw [one_le_div hlen]
  exact length_le_sum_of_one_le l h

/-- A non-null per-day average of a wellness column whose values are all
at least 1 is itself at least 1. -/
theorem day_avg_ge_one (f : WellnessEntry → Int) (fw : List WellnessEntry) (d : Nat)
    (hf : ∀ w ∈ fw, 1 ≤ f w) (q : ℚ) (hq : day_avg f fw d = some q) : 1 ≤ q := by
  rw [day_avg] at hq
  by_cases he : (fw.filter (fun w => decide (dateOf w.created_at = d))).isEmpty
  · simp [he] at hq
  · simp only [he, if_false, Option.some.injEq, Bool.false_eq_true] at hq
    rw [← hq]
    have hlen : ((fw.filter (fun w => decide (dateOf w.created_at = d))).map
        (fun w => ((f w : Int) : ℚ))).length =
        (fw.filter (fun w => decide (dateOf w.created_at = d))).length := by
      simp
    rw [← hlen]
    apply one_le_mean
    · intro hc
      rw [List.map_eq_nil_iff] at hc
      rw [hc] at he
      exact he rfl
    · intro x hx
      rw [List.mem_map] at hx
      obtain ⟨w, hw, rfl⟩ := hx
      have := hf w (List.mem_of_mem_filter hw)
      exact_mod_cast this

/-- Behaviour of the `avg_stress`/`avg_energy` expression on a gap-filled
series whose non-null entries are all at least 1 (as per-day averages of a
1-10 scale are): the result is null iff every entry is null, and otherwise
it is the mean of the non-null entries rounded to one decimal place. -/
theorem series_avg_spec (levels : List (Option ℚ))
    (h : ∀ q : ℚ, some q ∈ levels → 1 ≤ q) :
    (series_avg levels = none ↔ ∀ o ∈ levels, o = none) ∧
    ((∃ q : ℚ, some q ∈ levels) →
      series_avg levels = some (pyRound (nonNullMean levels) 1)) := by
  have hfilter : (levels.filterMap id).filter (fun q => decide (q ≠ 0)) =
      levels.filterMap id := by
    rw [List.filter_eq_self]
    intro q hq
    rw [List.mem_filterMap] at hq
    obtain ⟨o, ho, hoq⟩ := hq
    have hmem : some q ∈ levels := by
      cases o with
      | none => cases hoq
      | some r => cases hoq; exact ho
    have h1 := h q hmem
    simp only [decide_eq_true_eq]
    intro h0
    rw [h0] at h1
    norm_num at h1
  by_cases hany : levels.any pyTruthy
  · have hsome : series_avg levels = some (pyRound (nonNullMean levels) 1) := by
      rw [series_avg, if_pos hany, hfilter, nonNullMean]
    rw [List.any_eq_true] at hany
    obtain ⟨o, ho, hto⟩ := hany
    have hne : ∃ q : ℚ, some q ∈ levels := by
      cases o with
      | none => cases hto
      | some q => exact ⟨q, ho⟩
    refine ⟨?_, fun _ => hsome⟩
    rw [hsome]
    constructor
    · intro hc; cases hc
    · intro hall
      obtain ⟨q, hq⟩ := hne
      have := hall (some q) hq
      cases this
  · have hnone : series_avg levels = none := by
      rw [series_avg, if_neg hany]
    have hall : ∀ o ∈ levels, o = none := by
      intro o ho
      cases o with
      | none => rfl
      | some q =>
        exfalso
        apply hany
        rw [List.any_eq_true]
        refine ⟨some q, ho, ?_⟩
        have h1 := h q ho
        simp only [pyTruthy, decide_eq_true_eq]
        intro h0
        rw [h0] at h1
        norm_num at h1
    refine ⟨by rw [hnone]; exact ⟨fun _ => hall, fun _ => rfl⟩, ?_⟩
    intro hex
    obtain ⟨q, hq⟩ := hex
    have := hall (some q) hq
    cases this

/-- C2 amended: in every aggregate result over wellness data on the 1-10
scale, `avg_stress` (likewise `avg_energy`) is null iff every entry of
`stress_levels` (resp. `energy_levels`) is null; otherwise it equals the
mean over only the non-null entries of the gap-filled series — null days
do not count as zero — rounded to one decimal place (Python `round`,
half-to-even). -/
theorem aggregate_mean_amended (now : Nat) (sessions : List StudySession)
    (entries : List WellnessEntry) (uid days : Nat)
    (hs : ∀ w ∈ entries, 1 ≤ w.stress_level)
    (he : ∀ w ∈ entries, 1 ≤ w.energy_level) :
    ((get_study_analytics now sessions entries uid days).avg_stress = none ↔
      ∀ o ∈ (get_study_analytics now sessions entries uid days).stress_levels, o = none) ∧
    ((∃ q : ℚ, some q ∈ (get_study_analytics now sessions entries uid days).stress_levels) →
      (get_study_analytics now sessions entries uid days).avg_stress =
        some (pyRound
          (nonNullMean (get_study_analytics now sessions entries uid days).stress_levels) 1)) ∧
    ((get_study_analytics now sessions entries uid days).avg_energy = none ↔
      ∀ o ∈ (get_study_analytics now sessions entries uid days).energy_levels, o = none) ∧
    ((∃ q : ℚ, some q ∈ (get_study_analytics now sessions entries uid days).energy_levels) →
      (get_study_analytics now sessions entries uid days).avg_energy =
        some (pyRound
          (nonNullMean (get_study_analytics now sessions entries uid days).energy_levels) 1)) := by
  have hsw : ∀ w ∈ window_wellness now days entries uid, 1 ≤ w.stress_level :=
    fun w hw => hs w (List.mem_of_mem_filter hw)
  have hew : ∀ w ∈ window_wellness now days entries uid, 1 ≤ w.energy_level :=
    fun w hw => he w (List.mem_of_mem_filter hw)
  have hbs : ∀ q : ℚ,
      some q ∈ (get_study_analytics now sessions entries uid days).stress_levels → 1 ≤ q := by
    intro q hq
    have : some q ∈ (analytics_dates now days).map
        (day_avg (fun w => w.stress_level) (window_wellness now days entries uid)) := hq
    rw [List.mem_map] at this
    obtain ⟨d, _, hd⟩ := this
    exact day_avg_ge_one _ _ d hsw q hd
  have hbe : ∀ q : ℚ,
      some q ∈ (get_study_analytics now sessions entries uid days).energy_levels → 1 ≤ q := by
    intro q hq
    have : some q ∈ (analytics_dates now days).map
        (day_avg (fun w => w.energy_level) (window_wellness now days entries uid)) := hq
    rw [List.mem_map] at this
    obtain ⟨d, _, hd⟩ := this
    exact day_avg_ge_one _ _ d hew q hd
  have hstress := series_avg_spec
    (get_study_analytics now sessions entries uid days).stress_levels hbs
  have henergy := series_avg_spec
    (get_study_analytics now sessions entries uid days).energy_levels hbe
  exact ⟨hstress.1, hstress.2, henergy.1, henergy.2⟩

/-- C2 counterexample: with wellness entries of stress 1, 1, 2 on a single
day, the gap-filled series is `[4/3, null]`, whose non-null mean is 4/3,
but the reported `avg_stress` is the rounded value 1.3; so `avg_stress`
does not equal the mean of the non-null entries as claimed. -/
theorem mean_not_rounded_counterexample :
    (get_study_analytics 2000 [] oneDayEntries 1 2).stress_levels = [some (4 / 3), none] ∧
    nonNullMean (get_study_analytics 2000 [] oneDayEntries 1 2).stress_levels = 4 / 3 ∧
    (get_study_analytics 2000 [] oneDayEntries 1 2).avg_stress = some (13 / 10) ∧
    (get_study_analytics 2000 [] oneDayEntries 1 2).avg_stress ≠
      some (nonNullMean (get_study_analytics 2000 [] oneDayEntries 1 2).stress_levels) := by
  have hfw : window_wellness 2000 2 oneDayEntries 1 = oneDayEntries := by decide
  have hdates : analytics_dates 2000 2 = [0, 1] := by decide
  have hf0 : oneDayEntries.filter (fun w => decide (dateOf w.created_at = 0)) =
      oneDayEntries := by decide
  have hf1 : oneDayEntries.filter (fun w => decide (dateOf w.created_at = 1)) = [] := by decide
  have hd0 : day_avg (fun w => w.stress_level) oneDayEntries 0 = some (4 / 3) := by
    rw [day_avg]
    simp only [hf0]
    norm_num [oneDayEntries]
  have hd1 : day_avg (fun w => w.stress_level) oneDayEntries 1 = none := by
    rw [day_avg]
    simp [hf1]
  have hsl : (get_study_analytics 2000 [] oneDayEntries 1 2).stress_levels =
      [some (4 / 3), none] := by
    show (analytics_dates 2000 2).map
      (day_avg (fun w => w.stress_level) (window_wellness 2000 2 oneDayEntries 1)) = _
    rw [hdates, hfw, List.map_cons, List.map_cons, List.map_nil, hd0, hd1]
  have hmean : nonNullMean [some ((4 : ℚ) / 3), none] = 4 / 3 := by
    have hfm : ([some ((4 : ℚ) / 3), none]).filterMap id = [(4 : ℚ) / 3] := rfl
    rw [nonNullMean, hfm]
    norm_num
  have hfloor : ⌊(40 : ℚ) / 3⌋ = 13 := by
    rw [Int.floor_eq_iff]
    norm_num
  have hround : pyRound ((4 : ℚ) / 3) 1 = 13 / 10 := by
    have harg : (4 : ℚ) / 3 * 10 ^ 1 = 40 / 3 := by norm_num
    rw [pyRound, harg, roundHalfEven]
    norm_num [hfloor]
  have havg : (get_study_analytics 2000 [] oneDayEntries 1 2).avg_stress =
      some (13 / 10) := by
    show series_avg ((analytics_dates 2000 2).map
      (day_avg (fun w => w.stress_level) (window_wellness 2000 2 oneDayEntries 1))) = _
    rw [hdates, hfw, List.map_cons, List.map_cons, List.map_nil, hd0, hd1]
    have hcond : ([some ((4 : ℚ) / 3), none]).any pyTruthy = true := by
      simp only [List.any_cons, List.any_nil, pyTruthy, Bool.or_false]
      norm_num
    have hfm : ([some ((4 : ℚ) / 3), none]).filterMap id = [(4 : ℚ) / 3] := rfl
    rw [series_avg, if_pos hcond, hfm]
    have hfl : ([(4 : ℚ) / 3]).filter (fun q => decide (q ≠ 0)) = [(4 : ℚ) / 3] := by
      rw [List.filter_eq_self]
      intro a ha
      rw [List.mem_singleton] at ha
      subst ha
      norm_num
    rw [hfl]
    norm_num [hround]
  refine ⟨hsl, by rw [hsl]; exact hmean, havg, ?_⟩
  rw [havg, hsl, hmean]
  intro hc
  rw [Option.some.injEq] at hc
  norm_num at hc

/-- C2 witness: the amended statement at a concrete two-day window with
three wellness entries on the first day. -/
theorem aggregate_mean_amended_witness :
    ((∀ w ∈ oneDayEntries, 1 ≤ w.stress_level) ∧
      (∀ w ∈ oneDayEntries, 1 ≤ w.energy_level)) ∧
    ((get_study_analytics 2000 [] oneDayEntries 1 2).avg_stress = none ↔
      ∀ o ∈ (get_study_analytics 2000 [] oneDayEntries 1 2).stress_levels, o = none) :=
  ⟨⟨by decide, by decide⟩,
    (aggregate_mean_amended 2000 [] oneDayEntries 1 2 (by decide) (by decide)).1⟩

end Mindfit
